import Mathlib

/-!
Verification of the EcoScore gamification engine of the greenbridge
repository (`greenbridge/eco_cabinet/models.py`).

The engine is `EcoScore.update_from_batches`, which re-aggregates the
user's completed batches, recomputes gamification elements
(`_update_gamification_elements`) and then updates the activity streak
(`_update_streak`), in that order.  We embed the engine as a pure
function on an `EcoScore` record: dates are day numbers (`ℤ`, Python
`date` subtraction gives an exact day difference), decimals are exact
rationals (`ℚ`, Python `Decimal` arithmetic on these values is exact),
and the Python `int()` truncation is modelled explicitly.
-/

namespace GreenBridge

/-- The badge codes appended in `_update_gamification_elements`. -/
inductive Badge where
  | first_step
  | eco_starter
  | eco_enthusiast
  | eco_warrior
  | eco_champion
  | eco_legend
  | regular_recycler
  | dedicated_recycler
  | recycling_expert
  | weekly_streak
  | monthly_streak
  | centurion
deriving DecidableEq, Repr

/-- Modelled from the spec: the repository references `waste.TextileBatch`
but the class itself is not among the sources.  Per §6 of the spec a
completed batch record carries `weight_kg` and the per-material
coefficients `co2_per_kg`, `water_per_kg`, `energy_per_kg`; the engine
receives the already-filtered list (owner's batches with status
"recycled" and `is_active=True`). -/
structure Batch where
  weight_kg : ℚ
  co2_per_kg : ℚ
  water_per_kg : ℚ
  energy_per_kg : ℚ
deriving DecidableEq, Repr

/-- The engine-relevant fields of the `EcoScore` model (Django defaults:
everything zero, `level = 1`, empty badge list, `last_activity_date`
NULL). -/
@[ext]
structure EcoScore where
  total_batches : Nat
  total_weight_kg : ℚ
  total_co2_saved_kg : ℚ
  total_water_saved_liters : ℚ
  total_energy_saved_kwh : ℚ
  trees_equivalent : ℚ
  level : Nat
  points : ℤ
  badges : Finset Badge
  next_badge_progress : ℚ
  streak_days : Nat
  longest_streak_days : Nat
  last_activity_date : Option ℤ
deriving DecidableEq

/-- The model's field defaults (a fresh `EcoScore` row). -/
def ecoScoreInit : EcoScore where
  total_batches := 0
  total_weight_kg := 0
  total_co2_saved_kg := 0
  total_water_saved_liters := 0
  total_energy_saved_kwh := 0
  trees_equivalent := 0
  level := 1
  points := 0
  badges := ∅
  next_badge_progress := 0
  streak_days := 0
  longest_streak_days := 0
  last_activity_date := none

/-- Python `int()` applied to an exact rational: truncation toward zero. -/
def pyInt (q : ℚ) : ℤ := if 0 ≤ q then ⌊q⌋ else ⌈q⌉

/-- `level_thresholds` of `_update_gamification_elements`. -/
def level_thresholds : List ℤ := [0, 100, 300, 600, 1000, 1500, 2100, 2800, 3600, 4500, 5500]

/-- The `for i, threshold in enumerate(level_thresholds)` loop: starting
from the previous `self.level`, set `level = i + 1` whenever
`points >= threshold`. -/
def update_level_loop (points : ℤ) : Nat → List ℤ → Nat → Nat
  | i, t :: ts, lvl => update_level_loop points (i + 1) ts (if t ≤ points then i + 1 else lvl)
  | _, [], lvl => lvl

/-- The level computation of `_update_gamification_elements`. -/
def update_level (prev : Nat) (points : ℤ) : Nat :=
  update_level_loop points 0 level_thresholds prev

/-- The badge list built in `_update_gamification_elements` (append order
as in the source; all thresholds are inclusive `>=`). -/
def badge_list (w : ℚ) (nb sd : Nat) : List Badge :=
  (if 1 ≤ w then [Badge.first_step] else []) ++
  (if 10 ≤ w then [Badge.eco_starter] else []) ++
  (if 50 ≤ w then [Badge.eco_enthusiast] else []) ++
  (if 100 ≤ w then [Badge.eco_warrior] else []) ++
  (if 500 ≤ w then [Badge.eco_champion] else []) ++
  (if 1000 ≤ w then [Badge.eco_legend] else []) ++
  (if 5 ≤ nb then [Badge.regular_recycler] else []) ++
  (if 20 ≤ nb then [Badge.dedicated_recycler] else []) ++
  (if 50 ≤ nb then [Badge.recycling_expert] else []) ++
  (if 7 ≤ sd then [Badge.weekly_streak] else []) ++
  (if 30 ≤ sd then [Badge.monthly_streak] else []) ++
  (if 100 ≤ sd then [Badge.centurion] else [])

/-- `self.badges = list(set(badges))`: the badge list as a set. -/
def compute_badges (w : ℚ) (nb sd : Nat) : Finset Badge :=
  (badge_list w nb sd).toFinset

/-- `next_badge_thresholds` sorted by threshold value, as iterated by the
progress loop. -/
def next_badge_thresholds : List (Badge × ℚ) :=
  [(Badge.first_step, 1), (Badge.eco_starter, 10), (Badge.eco_enthusiast, 50),
   (Badge.eco_warrior, 100), (Badge.eco_champion, 500), (Badge.eco_legend, 1000)]

/-- The `for ... else` progress loop: the first weight badge not in the
current badge set fixes `next_badge_progress = current_weight / threshold`;
if none is missing the `else` arm sets `1.0`. -/
def compute_next_badge_progress (w : ℚ) (badges : Finset Badge) : ℚ :=
  match next_badge_thresholds.find? (fun bt => decide (bt.1 ∉ badges)) with
  | some bt => w / bt.2
  | none => 1

/-- `EcoScore._update_gamification_elements`: points, level, badges and
next-badge progress recomputed from the current cumulative metrics. -/
def update_gamification_elements (s : EcoScore) : EcoScore :=
  let points := pyInt (s.total_weight_kg * 10)
  let level := update_level s.level points
  let badges := compute_badges s.total_weight_kg s.total_batches s.streak_days
  { s with
    points := points
    level := level
    badges := badges
    next_badge_progress := compute_next_badge_progress s.total_weight_kg badges }

/-- `EcoScore._update_streak`: the four-branch update over
`last_activity_date` and `today`. -/
def update_streak (today : ℤ) (s : EcoScore) : EcoScore :=
  match s.last_activity_date with
  | none =>
      { s with streak_days := 1, longest_streak_days := 1, last_activity_date := some today }
  | some last =>
      if last = today then
        s
      else if today - last = 1 then
        { s with
          streak_days := s.streak_days + 1
          last_activity_date := some today
          longest_streak_days :=
            if s.streak_days + 1 > s.longest_streak_days then s.streak_days + 1
            else s.longest_streak_days }
      else
        { s with streak_days := 1, last_activity_date := some today }

/-- `batches.aggregate(total=Sum('weight_kg'))` with the `or Decimal('0.00')`
fallback (the sum over the empty set is zero). -/
def agg_weight (bs : List Batch) : ℚ := (bs.map Batch.weight_kg).sum

/-- `Sum(F('weight_kg') * F('material_type__co2_per_kg'))` with zero fallback. -/
def agg_co2 (bs : List Batch) : ℚ := (bs.map (fun b => b.weight_kg * b.co2_per_kg)).sum

/-- `Sum(F('weight_kg') * F('material_type__water_per_kg'))` with zero fallback. -/
def agg_water (bs : List Batch) : ℚ := (bs.map (fun b => b.weight_kg * b.water_per_kg)).sum

/-- `Sum(F('weight_kg') * F('material_type__energy_per_kg'))` with zero fallback. -/
def agg_energy (bs : List Batch) : ℚ := (bs.map (fun b => b.weight_kg * b.energy_per_kg)).sum

/-- The aggregation phase of `update_from_batches`: batch count, weight,
impact sums and the trees-equivalent heuristic. -/
def set_aggregates (bs : List Batch) (s : EcoScore) : EcoScore :=
  { s with
    total_batches := bs.length
    total_weight_kg := agg_weight bs
    total_co2_saved_kg := agg_co2 bs
    total_water_saved_liters := agg_water bs
    total_energy_saved_kwh := agg_energy bs
    trees_equivalent := agg_co2 bs / 20 }

/-- `EcoScore.update_from_batches`, given the already-filtered batch list
and the trigger date: aggregate, then `_update_gamification_elements`,
then `_update_streak`. -/
def update_from_batches (bs : List Batch) (today : ℤ) (s : EcoScore) : EcoScore :=
  update_streak today (update_gamification_elements (set_aggregates bs s))

/-- A sequence of engine runs (each with its filtered batch list and
trigger date), oldest first. -/
def run_all (events : List (List Batch × ℤ)) (s : EcoScore) : EcoScore :=
  events.foldl (fun st e => update_from_batches e.1 e.2 st) s

/-! ### Field-preservation lemmas -/

@[simp]
theorem update_streak_badges (t : ℤ) (s : EcoScore) : (update_streak t s).badges = s.badges := by
  unfold update_streak
  rcases hl : s.last_activity_date with _ | last
  · rfl
  · dsimp only
    split_ifs <;> rfl

@[simp]
theorem update_streak_points (t : ℤ) (s : EcoScore) : (update_streak t s).points = s.points := by
  unfold update_streak
  rcases hl : s.last_activity_date with _ | last
  · rfl
  · dsimp only
    split_ifs <;> rfl

@[simp]
theorem update_streak_level (t : ℤ) (s : EcoScore) : (update_streak t s).level = s.level := by
  unfold update_streak
  rcases hl : s.last_activity_date with _ | last
  · rfl
  · dsimp only
    split_ifs <;> rfl

@[simp]
theorem update_streak_progress (t : ℤ) (s : EcoScore) :
    (update_streak t s).next_badge_progress = s.next_badge_progress := by
  unfold update_streak
  rcases hl : s.last_activity_date with _ | last
  · rfl
  · dsimp only
    split_ifs <;> rfl

@[simp]
theorem update_streak_weight (t : ℤ) (s : EcoScore) :
    (update_streak t s).total_weight_kg = s.total_weight_kg := by
  unfold update_streak
  rcases hl : s.last_activity_date with _ | last
  · rfl
  · dsimp only
    split_ifs <;> rfl

@[simp]
theorem update_streak_batches (t : ℤ) (s : EcoScore) :
    (update_streak t s).total_batches = s.total_batches := by
  unfold update_streak
  rcases hl : s.last_activity_date with _ | last
  · rfl
  · dsimp only
    split_ifs <;> rfl

@[simp]
theorem update_streak_co2 (t : ℤ) (s : EcoScore) :
    (update_streak t s).total_co2_saved_kg = s.total_co2_saved_kg := by
  unfold update_streak
  rcases hl : s.last_activity_date with _ | last
  · rfl
  · dsimp only
    split_ifs <;> rfl

@[simp]
theorem update_streak_water (t : ℤ) (s : EcoScore) :
    (update_streak t s).total_water_saved_liters = s.total_water_saved_liters := by
  unfold update_streak
  rcases hl : s.last_activity_date with _ | last
  · rfl
  · dsimp only
    split_ifs <;> rfl

@[simp]
theorem update_streak_energy (t : ℤ) (s : EcoScore) :
    (update_streak t s).total_energy_saved_kwh = s.total_energy_saved_kwh := by
  unfold update_streak
  rcases hl : s.last_activity_date with _ | last
  · rfl
  · dsimp only
    split_ifs <;> rfl

@[simp]
theorem update_streak_trees (t : ℤ) (s : EcoScore) :
    (update_streak t s).trees_equivalent = s.trees_equivalent := by
  unfold update_streak
  rcases hl : s.last_activity_date with _ | last
  · rfl
  · dsimp only
    split_ifs <;> rfl

theorem update_streak_last (t : ℤ) (s : EcoScore) :
    (update_streak t s).last_activity_date = some t := by
  unfold update_streak
  rcases hl : s.last_activity_date with _ | last
  · rfl
  · dsimp only
    split_ifs with h1 h2 <;> simp [hl, h1]

/-- The `same_day` branch: a second trigger on the same calendar day is a
no-op for the streak. -/
theorem update_streak_same_day (t : ℤ) (s : EcoScore)
    (h : s.last_activity_date = some t) : update_streak t s = s := by
  unfold update_streak
  rw [h]
  simp

@[simp]
theorem update_gamification_streak (s : EcoScore) :
    (update_gamification_elements s).streak_days = s.streak_days := rfl

@[simp]
theorem update_gamification_longest (s : EcoScore) :
    (update_gamification_elements s).longest_streak_days = s.longest_streak_days := rfl

@[simp]
theorem update_gamification_last (s : EcoScore) :
    (update_gamification_elements s).last_activity_date = s.last_activity_date := rfl

@[simp]
theorem update_gamification_weight (s : EcoScore) :
    (update_gamification_elements s).total_weight_kg = s.total_weight_kg := rfl

@[simp]
theorem update_gamification_batch_count (s : EcoScore) :
    (update_gamification_elements s).total_batches = s.total_batches := rfl

@[simp]
theorem update_gamification_co2 (s : EcoScore) :
    (update_gamification_elements s).total_co2_saved_kg = s.total_co2_saved_kg := rfl

@[simp]
theorem update_gamification_water (s : EcoScore) :
    (update_gamification_elements s).total_water_saved_liters = s.total_water_saved_liters := rfl

@[simp]
theorem update_gamification_energy (s : EcoScore) :
    (update_gamification_elements s).total_energy_saved_kwh = s.total_energy_saved_kwh := rfl

@[simp]
theorem update_gamification_trees (s : EcoScore) :
    (update_gamification_elements s).trees_equivalent = s.trees_equivalent := rfl

@[simp]
theorem update_gamification_badges (s : EcoScore) :
    (update_gamification_elements s).badges =
      compute_badges s.total_weight_kg s.total_batches s.streak_days := rfl

@[simp]
theorem update_gamification_points (s : EcoScore) :
    (update_gamification_elements s).points = pyInt (s.total_weight_kg * 10) := rfl

@[simp]
theorem update_gamification_level (s : EcoScore) :
    (update_gamification_elements s).level =
      update_level s.level (pyInt (s.total_weight_kg * 10)) := rfl

/-! ### C4: the streak update is the spec's four-branch state machine -/

/-- The spec's four-branch streak state machine (§4.3 "Streak"),
transcribed from its words: `no_history` sets streak and longest to 1;
`same_day` is a no-op; `consecutive` increments the streak, moves the
date and raises the running maximum; any other difference is `broken`
and resets the streak leaving the maximum untouched. -/
def streak_spec (today : ℤ) (s : EcoScore) : EcoScore :=
  match s.last_activity_date with
  | none =>
      { s with streak_days := 1, longest_streak_days := 1, last_activity_date := some today }
  | some last =>
      if today = last then s
      else if today - last = 1 then
        { s with
          streak_days := s.streak_days + 1
          last_activity_date := some today
          longest_streak_days := max s.longest_streak_days (s.streak_days + 1) }
      else
        { s with streak_days := 1, last_activity_date := some today }

/-- C4: for every prior state and trigger date, `_update_streak` is
exactly the spec's four-branch state machine (unset date starts the
streak at 1; equal date is a no-op; a one-day difference increments the
streak and raises the running maximum; any other difference, including
a trigger date earlier than the stored one, resets the streak to 1 and
leaves the maximum untouched).  Being a single function application, at
most one transition happens per call. -/
theorem update_streak_eq_streak_spec (today : ℤ) (s : EcoScore) :
    update_streak today s = streak_spec today s := by
  unfold update_streak streak_spec
  rcases hl : s.last_activity_date with _ | last
  · rfl
  · dsimp only
    split_ifs <;> first | rfl | omega | (congr <;> omega)

/-! ### C7: the longest streak bounds the current streak -/

/-- Invariant carried through every engine run: the running maximum
bounds the streak, and once a last-activity date exists the maximum is
at least 1. -/
def streakInv (s : EcoScore) : Prop :=
  s.streak_days ≤ s.longest_streak_days ∧
    (s.last_activity_date = none ∨ 1 ≤ s.longest_streak_days)

theorem update_streak_inv (t : ℤ) (s : EcoScore) (h : streakInv s) :
    streakInv (update_streak t s) := by
  obtain ⟨h1, h2⟩ := h
  unfold streakInv update_streak
  rcases hl : s.last_activity_date with _ | last
  · simp
  · rw [hl] at h2
    have h2' : 1 ≤ s.longest_streak_days := by
      rcases h2 with h2 | h2
      · exact absurd h2 (by simp)
      · exact h2
    dsimp only
    split_ifs with g1 g2 g3 <;> simp [hl, h1, h2'] <;> omega

theorem update_from_batches_inv (bs : List Batch) (t : ℤ) (s : EcoScore)
    (h : streakInv s) : streakInv (update_from_batches bs t s) := by
  apply update_streak_inv
  obtain ⟨h1, h2⟩ := h
  exact ⟨h1, h2⟩

theorem run_all_inv (events : List (List Batch × ℤ)) (s : EcoScore) (h : streakInv s) :
    streakInv (run_all events s) := by
  induction events generalizing s with
  | nil => exact h
  | cons e es ih => exact ih _ (update_from_batches_inv e.1 e.2 s h)

/-- C7: starting from the initial `EcoScore` state, after every sequence
of engine updates `longest_streak_days ≥ streak_days` holds. -/
theorem longest_streak_ge_streak (events : List (List Batch × ℤ)) :
    (run_all events ecoScoreInit).streak_days ≤
      (run_all events ecoScoreInit).longest_streak_days :=
  (run_all_inv events ecoScoreInit ⟨Nat.le_refl 0, Or.inl rfl⟩).1

/-! ### Characterization of the level loop -/

/-- The enumerate loop, on a sorted threshold list, returns the start
index plus the number of thresholds that `p` satisfies (or the incoming
accumulator when none is satisfied). -/
theorem update_level_loop_eq (p : ℤ) (ts : List ℤ) :
    ∀ i lvl : Nat, ts.Sorted (· ≤ ·) →
      update_level_loop p i ts lvl =
        if ts.countP (fun t => decide (t ≤ p)) = 0 then lvl
        else i + ts.countP (fun t => decide (t ≤ p)) := by
  induction ts with
  | nil =>
      intro i lvl _
      simp [update_level_loop]
  | cons t ts ih =>
      intro i lvl hsorted
      obtain ⟨hhead, htail⟩ := List.sorted_cons.mp hsorted
      rw [show update_level_loop p i (t :: ts) lvl =
            update_level_loop p (i + 1) ts (if t ≤ p then i + 1 else lvl) from rfl,
        ih (i + 1) _ htail]
      by_cases htp : t ≤ p
      · have hc : (t :: ts).countP (fun x => decide (x ≤ p)) =
            ts.countP (fun x => decide (x ≤ p)) + 1 := by
          simp [List.countP_cons, htp]
        rw [hc, if_pos htp]
        by_cases h0 : ts.countP (fun x => decide (x ≤ p)) = 0
        · rw [if_pos h0, if_neg (by omega), h0]
        · rw [if_neg h0, if_neg (by omega)]
          omega
      · have h0 : ts.countP (fun x => decide (x ≤ p)) = 0 :=
          List.countP_eq_zero.mpr fun x hx => by
            have hx2 := hhead x hx
            simp only [decide_eq_true_eq]
            omega
        have hc : (t :: ts).countP (fun x => decide (x ≤ p)) = 0 := by
          simp [List.countP_cons, htp, h0]
        rw [hc, if_neg htp, h0]
        simp

theorem sorted_level_thresholds : level_thresholds.Sorted (· ≤ ·) := by decide

/-- `update_level` either counts the satisfied thresholds or, when none
is satisfied, keeps the previous level. -/
theorem update_level_eq (prev : Nat) (p : ℤ) :
    update_level prev p =
      if level_thresholds.countP (fun t => decide (t ≤ p)) = 0 then prev
      else level_thresholds.countP (fun t => decide (t ≤ p)) := by
  simpa using update_level_loop_eq p level_thresholds 0 prev sorted_level_thresholds

theorem update_level_eq_countP (prev : Nat) (p : ℤ) (hp : 0 ≤ p) :
    update_level prev p = level_thresholds.countP (fun t => decide (t ≤ p)) := by
  have hpos : 0 < level_thresholds.countP (fun t => decide (t ≤ p)) :=
    List.countP_pos_iff.mpr ⟨0, by simp [level_thresholds], by simpa using hp⟩
  rw [update_level_eq, if_neg (by omega)]

theorem update_level_of_neg (prev : Nat) (p : ℤ) (hp : p < 0) : update_level prev p = prev := by
  have h0 : level_thresholds.countP (fun t => decide (t ≤ p)) = 0 :=
    List.countP_eq_zero.mpr fun x hx => by
      simp only [level_thresholds, List.mem_cons, List.not_mem_nil, or_false] at hx
      simp only [decide_eq_true_eq]
      rcases hx with rfl | rfl | rfl | rfl | rfl | rfl | rfl | rfl | rfl | rfl | rfl <;> omega
  rw [update_level_eq, if_pos h0]

theorem update_level_idem (prev : Nat) (p : ℤ) :
    update_level (update_level prev p) p = update_level prev p := by
  rcases le_or_lt 0 p with hp | hp
  · exact (update_level_eq_countP _ p hp).trans (update_level_eq_countP prev p hp).symm
  · exact update_level_of_neg (update_level prev p) p hp

theorem update_level_le (prev : Nat) (p : ℤ) (hp : 0 ≤ p) : update_level prev p ≤ 11 := by
  refine le_trans (le_of_eq (update_level_eq_countP prev p hp)) ?_
  refine le_trans (List.countP_le_length _) ?_
  simp [level_thresholds]

theorem update_level_mono (prev1 prev2 : Nat) {p q : ℤ} (hp : 0 ≤ p) (hpq : p ≤ q) :
    update_level prev1 p ≤ update_level prev2 q := by
  calc update_level prev1 p
      = level_thresholds.countP (fun t => decide (t ≤ p)) :=
        update_level_eq_countP prev1 p hp
    _ ≤ level_thresholds.countP (fun t => decide (t ≤ q)) := by
        refine List.countP_mono_left fun t _ h => ?_
        simp only [decide_eq_true_eq] at h ⊢
        omega
    _ = update_level prev2 q := (update_level_eq_countP prev2 q (le_trans hp hpq)).symm

theorem countP_of_lt_100 {p : ℤ} (h0 : 0 ≤ p) (h : p < 100) :
    level_thresholds.countP (fun t => decide (t ≤ p)) = 1 := by
  simp [level_thresholds, List.countP_cons, List.countP_nil, h0,
    show ¬(100 ≤ p) by omega, show ¬(300 ≤ p) by omega, show ¬(600 ≤ p) by omega,
    show ¬(1000 ≤ p) by omega, show ¬(1500 ≤ p) by omega, show ¬(2100 ≤ p) by omega,
    show ¬(2800 ≤ p) by omega, show ¬(3600 ≤ p) by omega, show ¬(4500 ≤ p) by omega,
    show ¬(5500 ≤ p) by omega]

theorem countP_of_ge_5500 {p : ℤ} (h : 5500 ≤ p) :
    level_thresholds.countP (fun t => decide (t ≤ p)) = 11 := by
  simp [level_thresholds, List.countP_cons, List.countP_nil,
    show (0:ℤ) ≤ p by omega, show (100:ℤ) ≤ p by omega, show (300:ℤ) ≤ p by omega,
    show (600:ℤ) ≤ p by omega, show (1000:ℤ) ≤ p by omega, show (1500:ℤ) ≤ p by omega,
    show (2100:ℤ) ≤ p by omega, show (2800:ℤ) ≤ p by omega, show (3600:ℤ) ≤ p by omega,
    show (4500:ℤ) ≤ p by omega, show (5500:ℤ) ≤ p by omega]

theorem update_level_of_lt_100 (prev : Nat) {p : ℤ} (h0 : 0 ≤ p) (h : p < 100) :
    update_level prev p = 1 :=
  (update_level_eq_countP prev p h0).trans (countP_of_lt_100 h0 h)

theorem update_level_of_ge_5500 (prev : Nat) {p : ℤ} (h : 5500 ≤ p) :
    update_level prev p = 11 :=
  (update_level_eq_countP prev p (by omega)).trans (countP_of_ge_5500 h)

/-! ### Badge membership -/

theorem mem_ite_single {c : Prop} [Decidable c] {b x : Badge} :
    (b ∈ if c then [x] else []) ↔ c ∧ b = x := by
  split_ifs with h <;> simp [h]

theorem first_step_mem (w : ℚ) (nb sd : Nat) :
    Badge.first_step ∈ compute_badges w nb sd ↔ 1 ≤ w := by
  simp [compute_badges, badge_list, mem_ite_single]

theorem eco_starter_mem (w : ℚ) (nb sd : Nat) :
    Badge.eco_starter ∈ compute_badges w nb sd ↔ 10 ≤ w := by
  simp [compute_badges, badge_list, mem_ite_single]

theorem eco_enthusiast_mem (w : ℚ) (nb sd : Nat) :
    Badge.eco_enthusiast ∈ compute_badges w nb sd ↔ 50 ≤ w := by
  simp [compute_badges, badge_list, mem_ite_single]

theorem eco_warrior_mem (w : ℚ) (nb sd : Nat) :
    Badge.eco_warrior ∈ compute_badges w nb sd ↔ 100 ≤ w := by
  simp [compute_badges, badge_list, mem_ite_single]

theorem eco_champion_mem (w : ℚ) (nb sd : Nat) :
    Badge.eco_champion ∈ compute_badges w nb sd ↔ 500 ≤ w := by
  simp [compute_badges, badge_list, mem_ite_single]

theorem eco_legend_mem (w : ℚ) (nb sd : Nat) :
    Badge.eco_legend ∈ compute_badges w nb sd ↔ 1000 ≤ w := by
  simp [compute_badges, badge_list, mem_ite_single]

theorem weekly_streak_mem (w : ℚ) (nb sd : Nat) :
    Badge.weekly_streak ∈ compute_badges w nb sd ↔ 7 ≤ sd := by
  simp [compute_badges, badge_list, mem_ite_single]

theorem ite_single_sublist {c1 c2 : Prop} [Decidable c1] [Decidable c2]
    (h : c1 → c2) (x : Badge) :
    (if c1 then [x] else []).Sublist (if c2 then [x] else []) := by
  split_ifs with h1 h2
  · exact List.Sublist.refl _
  · exact absurd (h h1) h2
  · simp
  · exact List.Sublist.refl _

theorem badge_list_sublist {w1 w2 : ℚ} {nb1 nb2 sd1 sd2 : Nat}
    (hw : w1 ≤ w2) (hnb : nb1 ≤ nb2) (hsd : sd1 ≤ sd2) :
    (badge_list w1 nb1 sd1).Sublist (badge_list w2 nb2 sd2) := by
  unfold badge_list
  refine List.Sublist.append ?_ (ite_single_sublist (fun h => le_trans h hsd) _)
  refine List.Sublist.append ?_ (ite_single_sublist (fun h => le_trans h hsd) _)
  refine List.Sublist.append ?_ (ite_single_sublist (fun h => le_trans h hsd) _)
  refine List.Sublist.append ?_ (ite_single_sublist (fun h => le_trans h hnb) _)
  refine List.Sublist.append ?_ (ite_single_sublist (fun h => le_trans h hnb) _)
  refine List.Sublist.append ?_ (ite_single_sublist (fun h => le_trans h hnb) _)
  refine List.Sublist.append ?_ (ite_single_sublist (fun h => le_trans h hw) _)
  refine List.Sublist.append ?_ (ite_single_sublist (fun h => le_trans h hw) _)
  refine List.Sublist.append ?_ (ite_single_sublist (fun h => le_trans h hw) _)
  refine List.Sublist.append ?_ (ite_single_sublist (fun h => le_trans h hw) _)
  exact List.Sublist.append (ite_single_sublist (fun h => le_trans h hw) _)
    (ite_single_sublist (fun h => le_trans h hw) _)

theorem compute_badges_mono {w1 w2 : ℚ} {nb1 nb2 sd1 sd2 : Nat}
    (hw : w1 ≤ w2) (hnb : nb1 ≤ nb2) (hsd : sd1 ≤ sd2) :
    compute_badges w1 nb1 sd1 ⊆ compute_badges w2 nb2 sd2 := by
  intro b hb
  simp only [compute_badges, List.mem_toFinset] at hb ⊢
  exact (badge_list_sublist hw hnb hsd).subset hb

/-- The progress loop, applied to the badge set just computed from the
same weight, is a piecewise division by the first weight threshold
strictly above the weight (1 when the weight reached the last
threshold). -/
theorem compute_nbp_eq (w : ℚ) (nb sd : Nat) :
    compute_next_badge_progress w (compute_badges w nb sd) =
      if w < 1 then w / 1
      else if w < 10 then w / 10
      else if w < 50 then w / 50
      else if w < 100 then w / 100
      else if w < 500 then w / 500
      else if w < 1000 then w / 1000
      else 1 := by
  unfold compute_next_badge_progress next_badge_thresholds
  by_cases h1 : w < 1
  · rw [List.find?_cons_of_pos _ (by simp [first_step_mem]; linarith), if_pos h1]
  · rw [List.find?_cons_of_neg _ (by simp [first_step_mem]; linarith), if_neg h1]
    by_cases h2 : w < 10
    · rw [List.find?_cons_of_pos _ (by simp [eco_starter_mem]; linarith), if_pos h2]
    · rw [List.find?_cons_of_neg _ (by simp [eco_starter_mem]; linarith), if_neg h2]
      by_cases h3 : w < 50
      · rw [List.find?_cons_of_pos _ (by simp [eco_enthusiast_mem]; linarith), if_pos h3]
      · rw [List.find?_cons_of_neg _ (by simp [eco_enthusiast_mem]; linarith), if_neg h3]
        by_cases h4 : w < 100
        · rw [List.find?_cons_of_pos _ (by simp [eco_warrior_mem]; linarith), if_pos h4]
        · rw [List.find?_cons_of_neg _ (by simp [eco_warrior_mem]; linarith), if_neg h4]
          by_cases h5 : w < 500
          · rw [List.find?_cons_of_pos _ (by simp [eco_champion_mem]; linarith), if_pos h5]
          · rw [List.find?_cons_of_neg _ (by simp [eco_champion_mem]; linarith), if_neg h5]
            by_cases h6 : w < 1000
            · rw [List.find?_cons_of_pos _ (by simp [eco_legend_mem]; linarith), if_pos h6]
            · rw [List.find?_cons_of_neg _ (by simp [eco_legend_mem]; linarith), if_neg h6,
                List.find?_nil]

/-! ### C2: points and level formulas -/

/-- C2: for a run with non-negative aggregated weight, the engine sets
`points = floor(total_weight_kg * 10)` and `level` equal to the number of
entries of the fixed threshold table that are at most `points`; any run
ending with `points < 100` ends at level 1. -/
theorem points_and_level_formula (bs : List Batch) (t : ℤ) (s : EcoScore)
    (hw : 0 ≤ agg_weight bs) :
    (update_from_batches bs t s).points = ⌊agg_weight bs * 10⌋ ∧
    (update_from_batches bs t s).level =
      level_thresholds.countP
        (fun th => decide (th ≤ (update_from_batches bs t s).points)) ∧
    ((update_from_batches bs t s).points < 100 → (update_from_batches bs t s).level = 1) := by
  have h10 : (0:ℚ) ≤ agg_weight bs * 10 := by positivity
  have hpts : (update_from_batches bs t s).points = ⌊agg_weight bs * 10⌋ := by
    simp [update_from_batches, pyInt, h10, set_aggregates]
  have hfl : (0:ℤ) ≤ ⌊agg_weight bs * 10⌋ := Int.le_floor.mpr (by exact_mod_cast h10)
  have hlvl : (update_from_batches bs t s).level =
      update_level s.level ⌊agg_weight bs * 10⌋ := by
    simp [update_from_batches, pyInt, h10, set_aggregates]
  refine ⟨hpts, ?_, ?_⟩
  · rw [hpts, hlvl, update_level_eq_countP _ _ hfl]
  · intro hless
    rw [hpts] at hless
    rw [hlvl, update_level_of_lt_100 _ hfl hless]

/-- C2 witness: a 10 kg batch yields points 100 and level 2. -/
theorem points_and_level_formula_witness :
    (0:ℚ) ≤ agg_weight [⟨10, 2, 3, 4⟩] ∧
    (update_from_batches [⟨10, 2, 3, 4⟩] 0 ecoScoreInit).points =
      ⌊agg_weight [⟨10, 2, 3, 4⟩] * 10⌋ ∧
    (update_from_batches [⟨10, 2, 3, 4⟩] 0 ecoScoreInit).level =
      level_thresholds.countP
        (fun th => decide (th ≤ (update_from_batches [⟨10, 2, 3, 4⟩] 0 ecoScoreInit).points)) :=
  ⟨by norm_num [agg_weight],
   (points_and_level_formula [⟨10, 2, 3, 4⟩] 0 ecoScoreInit (by norm_num [agg_weight])).1,
   (points_and_level_formula [⟨10, 2, 3, 4⟩] 0 ecoScoreInit (by norm_num [agg_weight])).2.1⟩

/-! ### C10: the level is capped at 11 -/

/-- C10: for every run with non-negative aggregated weight the resulting
level is at most 11 (the length of the hard-coded threshold table), and
once `points ≥ 5500` the level is exactly 11, with no further
progression. -/
theorem level_capped (bs : List Batch) (t : ℤ) (s : EcoScore)
    (hw : 0 ≤ agg_weight bs) :
    (update_from_batches bs t s).level ≤ 11 ∧
    (5500 ≤ (update_from_batches bs t s).points → (update_from_batches bs t s).level = 11) := by
  have h10 : (0:ℚ) ≤ agg_weight bs * 10 := by positivity
  have hfl : (0:ℤ) ≤ ⌊agg_weight bs * 10⌋ := Int.le_floor.mpr (by exact_mod_cast h10)
  have hpts : (update_from_batches bs t s).points = ⌊agg_weight bs * 10⌋ := by
    simp [update_from_batches, pyInt, h10, set_aggregates]
  have hlvl : (update_from_batches bs t s).level =
      update_level s.level ⌊agg_weight bs * 10⌋ := by
    simp [update_from_batches, pyInt, h10, set_aggregates]
  constructor
  · rw [hlvl]
    exact update_level_le _ _ hfl
  · intro hbig
    rw [hpts] at hbig
    rw [hlvl, update_level_of_ge_5500 _ hbig]

/-- C10 witness: 550 kg yields points 5500 and level exactly 11. -/
theorem level_capped_witness :
    (0:ℚ) ≤ agg_weight [⟨550, 0, 0, 0⟩] ∧
    (update_from_batches [⟨550, 0, 0, 0⟩] 0 ecoScoreInit).level ≤ 11 ∧
    (update_from_batches [⟨550, 0, 0, 0⟩] 0 ecoScoreInit).level = 11 :=
  ⟨by norm_num [agg_weight],
   (level_capped [⟨550, 0, 0, 0⟩] 0 ecoScoreInit (by norm_num [agg_weight])).1,
   (level_capped [⟨550, 0, 0, 0⟩] 0 ecoScoreInit (by norm_num [agg_weight])).2
     (by norm_num [update_from_batches, update_gamification_elements, update_streak,
       set_aggregates, agg_weight, agg_co2, agg_water, agg_energy, pyInt, ecoScoreInit])⟩

/-! ### Field formulas for a full engine run -/

theorem update_from_batches_total_batches (bs : List Batch) (t : ℤ) (s : EcoScore) :
    (update_from_batches bs t s).total_batches = bs.length := by
  simp [update_from_batches, set_aggregates]

theorem update_from_batches_weight (bs : List Batch) (t : ℤ) (s : EcoScore) :
    (update_from_batches bs t s).total_weight_kg = agg_weight bs := by
  simp [update_from_batches, set_aggregates]

theorem update_from_batches_co2 (bs : List Batch) (t : ℤ) (s : EcoScore) :
    (update_from_batches bs t s).total_co2_saved_kg = agg_co2 bs := by
  simp [update_from_batches, set_aggregates]

theorem update_from_batches_water (bs : List Batch) (t : ℤ) (s : EcoScore) :
    (update_from_batches bs t s).total_water_saved_liters = agg_water bs := by
  simp [update_from_batches, set_aggregates]

theorem update_from_batches_energy (bs : List Batch) (t : ℤ) (s : EcoScore) :
    (update_from_batches bs t s).total_energy_saved_kwh = agg_energy bs := by
  simp [update_from_batches, set_aggregates]

theorem update_from_batches_trees (bs : List Batch) (t : ℤ) (s : EcoScore) :
    (update_from_batches bs t s).trees_equivalent = agg_co2 bs / 20 := by
  simp [update_from_batches, set_aggregates]

theorem update_from_batches_points (bs : List Batch) (t : ℤ) (s : EcoScore) :
    (update_from_batches bs t s).points = pyInt (agg_weight bs * 10) := by
  simp [update_from_batches, set_aggregates]

theorem update_from_batches_level (bs : List Batch) (t : ℤ) (s : EcoScore) :
    (update_from_batches bs t s).level =
      update_level s.level (pyInt (agg_weight bs * 10)) := by
  simp [update_from_batches, set_aggregates]

theorem update_from_batches_badges (bs : List Batch) (t : ℤ) (s : EcoScore) :
    (update_from_batches bs t s).badges =
      compute_badges (agg_weight bs) bs.length s.streak_days := by
  simp [update_from_batches, set_aggregates]

theorem update_from_batches_progress (bs : List Batch) (t : ℤ) (s : EcoScore) :
    (update_from_batches bs t s).next_badge_progress =
      compute_next_badge_progress (agg_weight bs)
        (compute_badges (agg_weight bs) bs.length s.streak_days) := by
  simp [update_from_batches, update_gamification_elements, set_aggregates]

theorem update_from_batches_last (bs : List Batch) (t : ℤ) (s : EcoScore) :
    (update_from_batches bs t s).last_activity_date = some t := by
  simp [update_from_batches, update_streak_last]

/-- When the state was already stamped with today's date, the streak
phase is a no-op and a run is just aggregation plus gamification. -/
theorem run_on_last_eq (bs : List Batch) (t : ℤ) (s : EcoScore)
    (h : s.last_activity_date = some t) :
    update_from_batches bs t s =
      update_gamification_elements (set_aggregates bs s) := by
  unfold update_from_batches
  exact update_streak_same_day t _ (by simpa using h)

theorem pyInt_nonneg {q : ℚ} (h : 0 ≤ q) : 0 ≤ pyInt q := by
  rw [pyInt, if_pos h]
  exact Int.le_floor.mpr (by exact_mod_cast h)

theorem pyInt_mono {q r : ℚ} (h0 : 0 ≤ q) (h : q ≤ r) : pyInt q ≤ pyInt r := by
  rw [pyInt, if_pos h0, pyInt, if_pos (le_trans h0 h)]
  exact Int.floor_le_floor h

/-! ### C9: a run on an empty batch set -/

/-- C9 counterexample: on a state whose streak already reached 7 days, a
run with an empty filtered batch set still awards `weekly_streak` (the
streak badges are computed from the pre-run streak), so the resulting
badge set is not empty. -/
theorem empty_run_badges_counterexample :
    (update_from_batches [] 6
        { ecoScoreInit with
          streak_days := 7, longest_streak_days := 7,
          last_activity_date := some 5 }).badges = {Badge.weekly_streak} := by
  norm_num +decide [update_from_batches, update_gamification_elements, update_streak,
    set_aggregates, agg_weight, agg_co2, agg_water, agg_energy, pyInt, update_level,
    update_level_loop, level_thresholds, compute_badges, badge_list,
    compute_next_badge_progress, next_badge_thresholds, List.find?, ecoScoreInit]

/-- C9 (amended): a run on an empty filtered batch set succeeds and,
whatever the prior state, produces zero aggregates, points 0, level 1
and progress 0/1 = 0; the badge set it stores is empty provided the
pre-run streak is below the 7-day badge threshold (streak badges are
evaluated against the pre-run streak, so a state carrying a streak of 7
or more still earns a streak badge even with no batches). -/
theorem empty_run_zeroes (t : ℤ) (s : EcoScore) :
    (update_from_batches [] t s).total_batches = 0 ∧
    (update_from_batches [] t s).total_weight_kg = 0 ∧
    (update_from_batches [] t s).total_co2_saved_kg = 0 ∧
    (update_from_batches [] t s).total_water_saved_liters = 0 ∧
    (update_from_batches [] t s).total_energy_saved_kwh = 0 ∧
    (update_from_batches [] t s).points = 0 ∧
    (update_from_batches [] t s).level = 1 ∧
    (update_from_batches [] t s).next_badge_progress = 0 ∧
    (s.streak_days < 7 → (update_from_batches [] t s).badges = ∅) := by
  have hw0 : agg_weight ([] : List Batch) = 0 := by simp [agg_weight]
  have hpy : pyInt (agg_weight ([] : List Batch) * 10) = 0 := by
    norm_num [hw0, pyInt]
  refine ⟨?_, ?_, ?_, ?_, ?_, ?_, ?_, ?_, ?_⟩
  · rw [update_from_batches_total_batches]
    rfl
  · rw [update_from_batches_weight, hw0]
  · rw [update_from_batches_co2]
    simp [agg_co2]
  · rw [update_from_batches_water]
    simp [agg_water]
  · rw [update_from_batches_energy]
    simp [agg_energy]
  · rw [update_from_batches_points, hpy]
  · rw [update_from_batches_level, hpy]
    exact update_level_of_lt_100 s.level (by norm_num) (by norm_num)
  · rw [update_from_batches_progress,
      compute_nbp_eq (agg_weight []) ([] : List Batch).length s.streak_days,
      if_pos (by rw [hw0]; norm_num), hw0]
    norm_num
  · intro hsd
    rw [update_from_batches_badges]
    norm_num +decide [hw0, compute_badges, badge_list,
      show ¬(7 ≤ s.streak_days) by omega, show ¬(30 ≤ s.streak_days) by omega,
      show ¬(100 ≤ s.streak_days) by omega]

/-- C9 witness: a run on the initial state with no batches, discharging
the streak hypothesis of the badge clause. -/
theorem empty_run_zeroes_witness :
    (update_from_batches [] 0 ecoScoreInit).total_batches = 0 ∧
    (update_from_batches [] 0 ecoScoreInit).points = 0 ∧
    (update_from_batches [] 0 ecoScoreInit).level = 1 ∧
    (update_from_batches [] 0 ecoScoreInit).next_badge_progress = 0 ∧
    (update_from_batches [] 0 ecoScoreInit).badges = ∅ :=
  ⟨(empty_run_zeroes 0 ecoScoreInit).1,
   (empty_run_zeroes 0 ecoScoreInit).2.2.2.2.2.1,
   (empty_run_zeroes 0 ecoScoreInit).2.2.2.2.2.2.1,
   (empty_run_zeroes 0 ecoScoreInit).2.2.2.2.2.2.2.1,
   (empty_run_zeroes 0 ecoScoreInit).2.2.2.2.2.2.2.2 (by decide)⟩

/-! ### C3: streak badges are evaluated against the pre-update streak -/

/-- C3 counterexample: with a streak of 6 as of yesterday, a run on the
next day raises `streak_days` to 7 but does not award `weekly_streak` in
that same run, because `_update_gamification_elements` runs before
`_update_streak`. -/
theorem streak_badge_lag_counterexample :
    (update_from_batches [] 10
        { ecoScoreInit with
          streak_days := 6, longest_streak_days := 6,
          last_activity_date := some 9 }).streak_days = 7 ∧
    Badge.weekly_streak ∉
      (update_from_batches [] 10
        { ecoScoreInit with
          streak_days := 6, longest_streak_days := 6,
          last_activity_date := some 9 }).badges := by
  constructor <;>
    norm_num +decide [update_from_batches, update_gamification_elements, update_streak,
      set_aggregates, agg_weight, agg_co2, agg_water, agg_energy, pyInt, update_level,
      update_level_loop, level_thresholds, compute_badges, badge_list,
      compute_next_badge_progress, next_badge_thresholds, List.find?, ecoScoreInit]

/-- C3 (amended): every run evaluates badges — streak badges included —
against the metrics as of before that run's streak update: the resulting
badge set is exactly `compute_badges` of the new aggregates and the
pre-run `streak_days`.  A run whose streak update reaches a badge
threshold therefore awards that badge only from the following run on. -/
theorem badges_use_pre_update_streak (bs : List Batch) (t : ℤ) (s : EcoScore) :
    (update_from_batches bs t s).badges =
      compute_badges (agg_weight bs) bs.length s.streak_days := by
  simp [update_from_batches, set_aggregates]

/-! ### C5: a second run with the same date is not identical -/

/-- C5 counterexample: after a run that advanced the streak from 6 to 7,
re-running the engine with the same date and batch set adds
`weekly_streak` to the badge set, so the second run's output differs
from the first run's. -/
theorem rerun_not_identical_counterexample :
    Badge.weekly_streak ∈
      (update_from_batches [] 10 (update_from_batches [] 10
        { ecoScoreInit with
          streak_days := 6, longest_streak_days := 6,
          last_activity_date := some 9 })).badges ∧
    Badge.weekly_streak ∉
      (update_from_batches [] 10
        { ecoScoreInit with
          streak_days := 6, longest_streak_days := 6,
          last_activity_date := some 9 }).badges := by
  constructor <;>
    norm_num +decide [update_from_batches, update_gamification_elements, update_streak,
      set_aggregates, agg_weight, agg_co2, agg_water, agg_energy, pyInt, update_level,
      update_level_loop, level_thresholds, compute_badges, badge_list,
      compute_next_badge_progress, next_badge_thresholds, List.find?, ecoScoreInit]

/-- C5 (amended): a second run with the same date and batch set keeps
every field of the first run's output — batch count, weight, CO2, water,
energy, trees, points, level and all three streak fields — except that
the badge set and the next-badge progress are re-evaluated against the
streak the first run updated; from the second run on the engine is at a
fixed point — a third run returns the second run's state exactly. -/
theorem second_run_stabilizes (bs : List Batch) (t : ℤ) (s : EcoScore) :
    (update_from_batches bs t (update_from_batches bs t s)).total_batches =
      (update_from_batches bs t s).total_batches ∧
    (update_from_batches bs t (update_from_batches bs t s)).total_weight_kg =
      (update_from_batches bs t s).total_weight_kg ∧
    (update_from_batches bs t (update_from_batches bs t s)).total_co2_saved_kg =
      (update_from_batches bs t s).total_co2_saved_kg ∧
    (update_from_batches bs t (update_from_batches bs t s)).total_water_saved_liters =
      (update_from_batches bs t s).total_water_saved_liters ∧
    (update_from_batches bs t (update_from_batches bs t s)).total_energy_saved_kwh =
      (update_from_batches bs t s).total_energy_saved_kwh ∧
    (update_from_batches bs t (update_from_batches bs t s)).trees_equivalent =
      (update_from_batches bs t s).trees_equivalent ∧
    (update_from_batches bs t (update_from_batches bs t s)).points =
      (update_from_batches bs t s).points ∧
    (update_from_batches bs t (update_from_batches bs t s)).level =
      (update_from_batches bs t s).level ∧
    (update_from_batches bs t (update_from_batches bs t s)).streak_days =
      (update_from_batches bs t s).streak_days ∧
    (update_from_batches bs t (update_from_batches bs t s)).longest_streak_days =
      (update_from_batches bs t s).longest_streak_days ∧
    (update_from_batches bs t (update_from_batches bs t s)).last_activity_date =
      (update_from_batches bs t s).last_activity_date ∧
    update_from_batches bs t (update_from_batches bs t (update_from_batches bs t s)) =
      update_from_batches bs t (update_from_batches bs t s) := by
  have h1 : (update_from_batches bs t s).last_activity_date = some t :=
    update_from_batches_last bs t s
  have hrun2 : update_from_batches bs t (update_from_batches bs t s) =
      update_gamification_elements (set_aggregates bs (update_from_batches bs t s)) :=
    run_on_last_eq bs t _ h1
  have h2 : (update_from_batches bs t (update_from_batches bs t s)).last_activity_date =
      some t := by
    rw [hrun2]
    simpa using h1
  have hrun3 : update_from_batches bs t
        (update_from_batches bs t (update_from_batches bs t s)) =
      update_gamification_elements
        (set_aggregates bs (update_from_batches bs t (update_from_batches bs t s))) :=
    run_on_last_eq bs t _ h2
  refine ⟨?_, ?_, ?_, ?_, ?_, ?_, ?_, ?_, ?_, ?_, ?_, ?_⟩
  · rw [hrun2, update_from_batches_total_batches]
    simp [set_aggregates]
  · rw [hrun2, update_from_batches_weight]
    simp [set_aggregates]
  · rw [hrun2, update_from_batches_co2]
    simp [set_aggregates]
  · rw [hrun2, update_from_batches_water]
    simp [set_aggregates]
  · rw [hrun2, update_from_batches_energy]
    simp [set_aggregates]
  · rw [hrun2, update_from_batches_trees]
    simp [set_aggregates]
  · rw [hrun2, update_from_batches_points]
    simp [set_aggregates, update_gamification_elements]
  · rw [hrun2]
    simp only [update_gamification_elements, set_aggregates, update_from_batches_level]
    exact update_level_idem s.level (pyInt (agg_weight bs * 10))
  · rw [hrun2]
    simp [set_aggregates]
  · rw [hrun2]
    simp [set_aggregates]
  · rw [hrun2, h1]
    simpa using h1
  · rw [hrun3, hrun2]
    ext <;> simp [update_gamification_elements, set_aggregates, update_level_idem]

/-! ### C1: badges are replaced, not unioned -/

/-- C1 counterexample: `weekly_streak`, present after a run that saw a
7-day streak, disappears on the next run once the streak has been
reset — the source rebuilds `badges` from scratch instead of unioning
with the stored set. -/
theorem badge_union_counterexample :
    Badge.weekly_streak ∈
      (update_from_batches [] 20
        { ecoScoreInit with
          streak_days := 7, longest_streak_days := 7,
          last_activity_date := some 10 }).badges ∧
    Badge.weekly_streak ∉
      (update_from_batches [] 30 (update_from_batches [] 20
        { ecoScoreInit with
          streak_days := 7, longest_streak_days := 7,
          last_activity_date := some 10 })).badges := by
  constructor <;>
    norm_num +decide [update_from_batches, update_gamification_elements, update_streak,
      set_aggregates, agg_weight, agg_co2, agg_water, agg_energy, pyInt, update_level,
      update_level_loop, level_thresholds, compute_badges, badge_list,
      compute_next_badge_progress, next_badge_thresholds, List.find?, ecoScoreInit]

/-- C1 (amended): each run replaces the badge set with the set computed
from that run's metrics (`self.badges = list(set(badges))`), so a badge
survives only while its metric still meets its threshold; between any
two runs whose aggregated weight, batch count and pre-run streak do not
decrease, the badge set is monotonically non-decreasing, but a badge
whose metric regressed (for example `weekly_streak` after a broken
streak) is removed by the next run. -/
theorem badges_monotone_of_metrics_monotone (bs1 bs2 : List Batch) (t1 t2 : ℤ)
    (s1 s2 : EcoScore) (hw : agg_weight bs1 ≤ agg_weight bs2)
    (hnb : bs1.length ≤ bs2.length) (hsd : s1.streak_days ≤ s2.streak_days) :
    (update_from_batches bs1 t1 s1).badges ⊆ (update_from_batches bs2 t2 s2).badges := by
  calc (update_from_batches bs1 t1 s1).badges
      = compute_badges (agg_weight bs1) bs1.length s1.streak_days := by
        simp [update_from_batches, set_aggregates]
    _ ⊆ compute_badges (agg_weight bs2) bs2.length s2.streak_days :=
        compute_badges_mono hw hnb hsd
    _ = (update_from_batches bs2 t2 s2).badges := by
        simp [update_from_batches, set_aggregates]

/-- C1 witness: growing the batch set from empty to one 10 kg batch only
adds badges. -/
theorem badges_monotone_witness :
    agg_weight [] ≤ agg_weight [⟨10, 2, 3, 4⟩] ∧
    ([] : List Batch).length ≤ [(⟨10, 2, 3, 4⟩ : Batch)].length ∧
    ecoScoreInit.streak_days ≤ ecoScoreInit.streak_days ∧
    (update_from_batches [] 0 ecoScoreInit).badges ⊆
      (update_from_batches [⟨10, 2, 3, 4⟩] 1 ecoScoreInit).badges :=
  ⟨by norm_num [agg_weight], by decide, le_refl _,
   badges_monotone_of_metrics_monotone [] [⟨10, 2, 3, 4⟩] 0 1 ecoScoreInit ecoScoreInit
     (by norm_num [agg_weight]) (by decide) (le_refl _)⟩

/-! ### C8: points and level across a lifetime -/

/-- C8 counterexample: the engine re-aggregates from scratch, so a run
whose filtered batch set shrank (a batch deactivated or reverted from
the recycled status) lowers both points and level. -/
theorem points_regress_counterexample :
    (update_from_batches [] 1 (update_from_batches [⟨10, 0, 0, 0⟩] 0 ecoScoreInit)).points <
      (update_from_batches [⟨10, 0, 0, 0⟩] 0 ecoScoreInit).points ∧
    (update_from_batches [] 1 (update_from_batches [⟨10, 0, 0, 0⟩] 0 ecoScoreInit)).level <
      (update_from_batches [⟨10, 0, 0, 0⟩] 0 ecoScoreInit).level := by
  constructor <;>
    norm_num +decide [update_from_batches, update_gamification_elements, update_streak,
      set_aggregates, agg_weight, agg_co2, agg_water, agg_energy, pyInt, update_level,
      update_level_loop, level_thresholds, compute_badges, badge_list,
      compute_next_badge_progress, next_badge_thresholds, List.find?, ecoScoreInit]

/-- C8 (amended): across successive runs, points and level are
monotonically non-decreasing provided the aggregated total weight does
not decrease between the runs (which holds whenever completed batches
are only ever added); a run over a smaller aggregate lowers them. -/
theorem points_level_monotone (bs1 bs2 : List Batch) (t1 t2 : ℤ) (s : EcoScore)
    (hw0 : 0 ≤ agg_weight bs1) (hw : agg_weight bs1 ≤ agg_weight bs2) :
    (update_from_batches bs1 t1 s).points ≤
      (update_from_batches bs2 t2 (update_from_batches bs1 t1 s)).points ∧
    (update_from_batches bs1 t1 s).level ≤
      (update_from_batches bs2 t2 (update_from_batches bs1 t1 s)).level := by
  have h1 : (0:ℚ) ≤ agg_weight bs1 * 10 := by positivity
  have h2 : agg_weight bs1 * 10 ≤ agg_weight bs2 * 10 := by linarith
  constructor
  · rw [update_from_batches_points, update_from_batches_points]
    exact pyInt_mono h1 h2
  · rw [update_from_batches_level, update_from_batches_level]
    exact update_level_mono _ _ (pyInt_nonneg h1) (pyInt_mono h1 h2)

/-- C8 witness: from one 10 kg batch to 10 kg + 5 kg. -/
theorem points_level_monotone_witness :
    (0:ℚ) ≤ agg_weight [⟨10, 0, 0, 0⟩] ∧
    agg_weight [⟨10, 0, 0, 0⟩] ≤ agg_weight [⟨10, 0, 0, 0⟩, ⟨5, 0, 0, 0⟩] ∧
    (update_from_batches [⟨10, 0, 0, 0⟩] 0 ecoScoreInit).points ≤
      (update_from_batches [⟨10, 0, 0, 0⟩, ⟨5, 0, 0, 0⟩] 1
        (update_from_batches [⟨10, 0, 0, 0⟩] 0 ecoScoreInit)).points ∧
    (update_from_batches [⟨10, 0, 0, 0⟩] 0 ecoScoreInit).level ≤
      (update_from_batches [⟨10, 0, 0, 0⟩, ⟨5, 0, 0, 0⟩] 1
        (update_from_batches [⟨10, 0, 0, 0⟩] 0 ecoScoreInit)).level :=
  ⟨by norm_num [agg_weight], by norm_num [agg_weight],
   (points_level_monotone [⟨10, 0, 0, 0⟩] [⟨10, 0, 0, 0⟩, ⟨5, 0, 0, 0⟩] 0 1 ecoScoreInit
     (by norm_num [agg_weight]) (by norm_num [agg_weight])).1,
   (points_level_monotone [⟨10, 0, 0, 0⟩] [⟨10, 0, 0, 0⟩, ⟨5, 0, 0, 0⟩] 0 1 ecoScoreInit
     (by norm_num [agg_weight]) (by norm_num [agg_weight])).2⟩

/-! ### C6: next-badge progress -/

/-- C6: after a run with non-negative aggregated weight, the stored
`next_badge_progress` lies in [0, 1]; it equals 1 when every weight
badge is in the resulting badge set, and whenever a weight badge is
missing, the progress toward the first missing one (in ascending
threshold order) equals `total_weight_kg / threshold`, a value in
[0, 1). -/
theorem next_badge_progress_formula (bs : List Batch) (t : ℤ) (s : EcoScore)
    (hw : 0 ≤ agg_weight bs) :
    (0 ≤ (update_from_batches bs t s).next_badge_progress ∧
      (update_from_batches bs t s).next_badge_progress ≤ 1) ∧
    ((∀ bt ∈ next_badge_thresholds, bt.1 ∈ (update_from_batches bs t s).badges) →
      (update_from_batches bs t s).next_badge_progress = 1) ∧
    (∀ bt ∈ next_badge_thresholds,
      bt.1 ∉ (update_from_batches bs t s).badges →
      (∀ bt2 ∈ next_badge_thresholds, bt2.2 < bt.2 →
        bt2.1 ∈ (update_from_batches bs t s).badges) →
      (update_from_batches bs t s).next_badge_progress =
          (update_from_batches bs t s).total_weight_kg / bt.2 ∧
        (update_from_batches bs t s).next_badge_progress < 1) := by
  rw [update_from_batches_progress, update_from_batches_badges, update_from_batches_weight]
  refine ⟨?_, ?_, ?_⟩
  · rw [compute_nbp_eq]
    split_ifs with g1 g2 g3 g4 g5 g6
    · exact ⟨div_nonneg hw (by norm_num), by rw [div_le_one (by norm_num)]; linarith⟩
    · exact ⟨div_nonneg hw (by norm_num), by rw [div_le_one (by norm_num)]; linarith⟩
    · exact ⟨div_nonneg hw (by norm_num), by rw [div_le_one (by norm_num)]; linarith⟩
    · exact ⟨div_nonneg hw (by norm_num), by rw [div_le_one (by norm_num)]; linarith⟩
    · exact ⟨div_nonneg hw (by norm_num), by rw [div_le_one (by norm_num)]; linarith⟩
    · exact ⟨div_nonneg hw (by norm_num), by rw [div_le_one (by norm_num)]; linarith⟩
    · exact ⟨by norm_num, by norm_num⟩
  · intro hall
    have hleg := hall (Badge.eco_legend, 1000) (by simp [next_badge_thresholds])
    simp only [eco_legend_mem] at hleg
    rw [compute_nbp_eq, if_neg (by linarith), if_neg (by linarith), if_neg (by linarith),
      if_neg (by linarith), if_neg (by linarith), if_neg (by linarith)]
  · intro bt hbt habs hfirst
    simp only [next_badge_thresholds, List.mem_cons, List.not_mem_nil, or_false] at hbt
    rcases hbt with rfl | rfl | rfl | rfl | rfl | rfl
    · simp only [first_step_mem, not_le] at habs
      constructor
      · rw [compute_nbp_eq, if_pos (by linarith)]
      · rw [compute_nbp_eq, if_pos (by linarith), div_one]
        linarith
    · simp only [eco_starter_mem, not_le] at habs
      have hf := hfirst (Badge.first_step, 1) (by simp [next_badge_thresholds]) (by norm_num)
      simp only [first_step_mem] at hf
      constructor
      · rw [compute_nbp_eq, if_neg (by linarith), if_pos (by linarith)]
      · rw [compute_nbp_eq, if_neg (by linarith), if_pos (by linarith)]
        rw [div_lt_one (by norm_num)]
        linarith
    · simp only [eco_enthusiast_mem, not_le] at habs
      have hf := hfirst (Badge.eco_starter, 10) (by simp [next_badge_thresholds]) (by norm_num)
      simp only [eco_starter_mem] at hf
      constructor
      · rw [compute_nbp_eq, if_neg (by linarith), if_neg (by linarith), if_pos (by linarith)]
      · rw [compute_nbp_eq, if_neg (by linarith), if_neg (by linarith), if_pos (by linarith)]
        rw [div_lt_one (by norm_num)]
        linarith
    · simp only [eco_warrior_mem, not_le] at habs
      have hf := hfirst (Badge.eco_enthusiast, 50) (by simp [next_badge_thresholds]) (by norm_num)
      simp only [eco_enthusiast_mem] at hf
      constructor
      · rw [compute_nbp_eq, if_neg (by linarith), if_neg (by linarith), if_neg (by linarith),
          if_pos (by linarith)]
      · rw [compute_nbp_eq, if_neg (by linarith), if_neg (by linarith), if_neg (by linarith),
          if_pos (by linarith)]
        rw [div_lt_one (by norm_num)]
        linarith
    · simp only [eco_champion_mem, not_le] at habs
      have hf := hfirst (Badge.eco_warrior, 100) (by simp [next_badge_thresholds]) (by norm_num)
      simp only [eco_warrior_mem] at hf
      constructor
      · rw [compute_nbp_eq, if_neg (by linarith), if_neg (by linarith), if_neg (by linarith),
          if_neg (by linarith), if_pos (by linarith)]
      · rw [compute_nbp_eq, if_neg (by linarith), if_neg (by linarith), if_neg (by linarith),
          if_neg (by linarith), if_pos (by linarith)]
        rw [div_lt_one (by norm_num)]
        linarith
    · simp only [eco_legend_mem, not_le] at habs
      have hf := hfirst (Badge.eco_champion, 500) (by simp [next_badge_thresholds]) (by norm_num)
      simp only [eco_champion_mem] at hf
      constructor
      · rw [compute_nbp_eq, if_neg (by linarith), if_neg (by linarith), if_neg (by linarith),
          if_neg (by linarith), if_neg (by linarith), if_pos (by linarith)]
      · rw [compute_nbp_eq, if_neg (by linarith), if_neg (by linarith), if_neg (by linarith),
          if_neg (by linarith), if_neg (by linarith), if_pos (by linarith)]
        rw [div_lt_one (by norm_num)]
        linarith

/-- C6 witness: one 10 kg batch gives a progress value inside [0, 1]. -/
theorem next_badge_progress_formula_witness :
    (0:ℚ) ≤ agg_weight [⟨10, 2, 3, 4⟩] ∧
    (0 ≤ (update_from_batches [⟨10, 2, 3, 4⟩] 0 ecoScoreInit).next_badge_progress ∧
      (update_from_batches [⟨10, 2, 3, 4⟩] 0 ecoScoreInit).next_badge_progress ≤ 1) :=
  ⟨by norm_num [agg_weight],
   (next_badge_progress_formula [⟨10, 2, 3, 4⟩] 0 ecoScoreInit (by norm_num [agg_weight])).1⟩

end GreenBridge
